import Mathlib

/-!
Shallow embedding of `indy_node/server/node.py` (class `Node`, subclass of the
plenum consensus-core node).  Each overridden method is translated into a Lean
function; calls into external collaborators (the plenum base class, the
Upgrader, PoolConfig, the wallet, the config request handler, the attribute
store, the ledger manager) are recorded as explicit actions in an output
trace, so that claims about which calls happen and in which order become
statements about the produced trace.  Values the method reads from a
collaborator (flags, versions, authentication results) are fields of an
abstract node-state record.
-/

/-! ### Constants (from plenum.common.constants / indy_common.constants) -/

/-- plenum POOL_LEDGER_ID. -/
def POOL_LEDGER_ID : Nat := 0

/-- plenum DOMAIN_LEDGER_ID. -/
def DOMAIN_LEDGER_ID : Nat := 1

/-- indy_common CONFIG_LEDGER_ID. -/
def CONFIG_LEDGER_ID : Nat := 2

/-- indy_common transaction-type tag for ATTRIB transactions. -/
def ATTRIB : String := "100"

/-- indy_common transaction-type tag for POOL_UPGRADE transactions. -/
def POOL_UPGRADE : String := "109"

/-- indy_common transaction-type tag for NODE_UPGRADE control messages. -/
def NODE_UPGRADE : String := "110"

/-- indy_common transaction-type tag for POOL_CONFIG transactions. -/
def POOL_CONFIG : String := "111"

/-- indy_common upgrade action constant COMPLETE. -/
def COMPLETE : String := "complete"

/-- indy_common upgrade action constant FAIL. -/
def FAIL : String := "fail"

/-- indy_common upgrade action constant IN_PROGRESS. -/
def IN_PROGRESS : String := "in_progress"

/-- The retry-advisory reason used by the write-mode gate in
`Node.processRequest`. -/
def readonlyReason : String := "Pool is in readonly mode, try again in 60 seconds"

/-! ### Data model -/

/-- The DATA body of a NODE_UPGRADE operation: exactly an action and a
version, as built by `acknowledge_upgrade` and `notify_upgrade_start`. -/
structure UpgradeData where
  action : String
  version : String
deriving DecidableEq

/-- The operation dict of a NODE_UPGRADE control message:
`TXN_TYPE`, `DATA`, and the `SIG` field added over the DATA body. -/
structure NodeUpgradeOp where
  txnType : String
  data : UpgradeData
  sig : String
deriving DecidableEq

/-- A request as returned by `wallet.signRequest(Request(operation=op,
protocolVersion=pv))`: the operation and protocolVersion are preserved and
the wallet attaches its identifier, a request id and a signature. -/
structure BuiltRequest where
  operation : NodeUpgradeOp
  protocolVersion : Option Nat
  identifier : String
  reqId : Nat
  signature : String
deriving DecidableEq

/-- The slice of a client request that `Node.processRequest` reads:
identifier, request id, the operation's TXN_TYPE and the forced flag
(`request.isForced()`). -/
structure ClientRequest where
  identifier : String
  reqId : Nat
  txnType : String
  forced : Bool
deriving DecidableEq

/-- The slice of a node-originated request that `Node.processNodeRequest`
reads: identifier, request id, the operation's TXN_TYPE, the operation's
DATA body and the operation's SIG field. -/
structure NodeRequest where
  identifier : String
  reqId : Nat
  txnType : String
  data : UpgradeData
  sig : String
deriving DecidableEq

/-- The exception raised by the write-mode gate:
`InvalidClientRequest(identifier, reqId, reason)`. -/
structure InvalidClientRequestErr where
  identifier : String
  reqId : Nat
  reason : String
deriving DecidableEq

/-- Calls the node makes into its external collaborators, recorded as an
explicit trace. -/
inductive NodeAction where
  | syncLedger (ledgerId : Nat)
  | processStashedLedgerStatuses (ledgerId : Nat)
  | startDomainLedgerSync
  | poolCfgProcessLedger
  | upgraderProcessLedger
  | startedProcessingReq (identifier : String) (reqId : Nat) (frm : String)
  | send (req : BuiltRequest)
  | upgraderNotifiedAboutUpgradeResult
  | processQuery (req : ClientRequest) (frm : String)
  | incrementReadRequestCount
  | configValidate (req : ClientRequest)
  | configApplyForced (req : ClientRequest)
  | superProcessRequest (req : ClientRequest) (frm : String)
  | nodeAuthenticate (data : UpgradeData) (identifier : String) (sig : String)
  | logWarning (identifier : String) (reqId : Nat)
  | recordAndPropagate (identifier : String) (reqId : Nat) (frm : String)
  | configOnBatchCreated (stateRoot : String)
  | configOnBatchRejected
  | superOnBatchCreated (ledgerId : Nat) (stateRoot : String)
  | superOnBatchRejected (ledgerId : Nat)
  | superPostRecvTxnFromCatchup (ledgerId : Nat) (txn : String)
deriving DecidableEq

/-- The values `node.py` reads from the external Upgrader collaborator. -/
structure UpgraderView where
  shouldNotifyAboutUpgradeResult : Bool
  lastUpgradeEventVersion : String
  didLastExecutedUpgradeSucceeded : Bool
  scheduledUpgradeVersion : String
deriving DecidableEq

/-- The value `node.py` reads from the external PoolConfig collaborator
(`poolCfg.isWritable()`). -/
structure PoolConfigView where
  writable : Bool
deriving DecidableEq

/-- Abstract node state: the collaborator views and interface functions the
translated methods consult.  Function-valued fields model external calls
whose results the code branches on. -/
structure NodeState where
  upgrader : UpgraderView
  poolCfg : PoolConfigView
  nodestackName : String
  walletIdentifier : String
  walletReqId : Nat
  signMsg : UpgradeData → String
  signReqSig : NodeUpgradeOp → Option Nat → String
  isQuery : String → Bool
  nodeAuthOk : UpgradeData → String → String → Bool
  isProcessingReq : String → Nat → Bool

/-- External wallet interface: `wallet.signRequest` wraps the operation into
a request, preserving the operation and protocolVersion and attaching the
wallet's identifier, a request id and a request-level signature. -/
def NodeState.signRequest (n : NodeState) (op : NodeUpgradeOp)
    (pv : Option Nat) : BuiltRequest :=
  { operation := op
    protocolVersion := pv
    identifier := n.walletIdentifier
    reqId := n.walletReqId
    signature := n.signReqSig op pv }

/-! ### Translated methods of `indy_node.server.node.Node` -/

/-- `Node.start_config_ledger_sync`: starts the config ledger sync and then
replays stashed config ledger statuses. -/
def start_config_ledger_sync : List NodeAction :=
  [NodeAction.syncLedger CONFIG_LEDGER_ID,
   NodeAction.processStashedLedgerStatuses CONFIG_LEDGER_ID]

/-- `Node.catchup_next_ledger_after_pool`: the hook the base class runs when
the pool ledger is caught up; it starts the config ledger sync. -/
def catchup_next_ledger_after_pool : List NodeAction :=
  start_config_ledger_sync

/-- `Node.acknowledge_upgrade`: if the upgrader does not ask for a
notification, do nothing; otherwise build a NODE_UPGRADE request whose DATA
holds COMPLETE or FAIL and the last upgrade event's version, sign it, record
it as being processed, send it, and only then tell the upgrader it has been
notified. -/
def acknowledge_upgrade (n : NodeState) : List NodeAction :=
  if !n.upgrader.shouldNotifyAboutUpgradeResult then []
  else
    let lastUpgradeVersion := n.upgrader.lastUpgradeEventVersion
    let action :=
      if n.upgrader.didLastExecutedUpgradeSucceeded then COMPLETE else FAIL
    let data : UpgradeData := { action := action, version := lastUpgradeVersion }
    let op : NodeUpgradeOp :=
      { txnType := NODE_UPGRADE, data := data, sig := n.signMsg data }
    let request := n.signRequest op none
    [NodeAction.startedProcessingReq request.identifier request.reqId n.nodestackName,
     NodeAction.send request,
     NodeAction.upgraderNotifiedAboutUpgradeResult]

/-- `Node.postConfigLedgerCaughtUp`: recompute PoolConfig, recompute the
upgrade schedule, start the domain ledger sync, then send any pending
upgrade-outcome notification. -/
def postConfigLedgerCaughtUp (n : NodeState) : List NodeAction :=
  [NodeAction.poolCfgProcessLedger,
   NodeAction.upgraderProcessLedger,
   NodeAction.startDomainLedgerSync]
  ++ acknowledge_upgrade n

/-- `Node.notify_upgrade_start`: build a NODE_UPGRADE request whose DATA
holds IN_PROGRESS and the scheduled upgrade's version, sign it, record it as
being processed and send it. -/
def notify_upgrade_start (n : NodeState) : List NodeAction :=
  let scheduledVersion := n.upgrader.scheduledUpgradeVersion
  let action := IN_PROGRESS
  let data : UpgradeData := { action := action, version := scheduledVersion }
  let op : NodeUpgradeOp :=
    { txnType := NODE_UPGRADE, data := data, sig := n.signMsg data }
  let request := n.signRequest op none
  [NodeAction.startedProcessingReq request.identifier request.reqId n.nodestackName,
   NodeAction.send request]

/-- `Node.processNodeRequest`: a NODE_UPGRADE request is authenticated with
the node authenticator over the operation's DATA and SIG; if authentication
raises, the failure is logged as a warning and the method returns.
Otherwise the request is recorded as being processed (when not already) and
propagated. -/
def processNodeRequest (n : NodeState) (request : NodeRequest)
    (frm : String) : List NodeAction :=
  if request.txnType = NODE_UPGRADE ∧
      n.nodeAuthOk request.data request.identifier request.sig = false then
    [NodeAction.nodeAuthenticate request.data request.identifier request.sig,
     NodeAction.logWarning request.identifier request.reqId]
  else
    (if request.txnType = NODE_UPGRADE then
      [NodeAction.nodeAuthenticate request.data request.identifier request.sig]
    else [])
    ++ (if !n.isProcessingReq request.identifier request.reqId then
      [NodeAction.startedProcessingReq request.identifier request.reqId frm]
    else [])
    ++ [NodeAction.recordAndPropagate request.identifier request.reqId frm]

/-- The two authenticators `Node.authNr` can return. -/
inductive Authenticator where
  | nodeAuthNr
  | coreAuthNr
deriving DecidableEq

/-- `Node.authNr`: a request whose operation's TXN_TYPE is NODE_UPGRADE gets
the node authenticator, everything else the base-class authenticator.  The
argument is the operation's TXN_TYPE when present. -/
def authNr (opTxnType : Option String) : Authenticator :=
  if opTxnType = some NODE_UPGRADE then Authenticator.nodeAuthNr
  else Authenticator.coreAuthNr

/-- `Node.postRecvTxnFromCatchup`: config ledger transactions received from
catch-up are not applied to the state and None is returned; other ledgers
delegate to the base class, whose result is passed in abstractly. -/
def postRecvTxnFromCatchup (superResult : Option String) (ledgerId : Nat)
    (txn : String) : Option String × List NodeAction :=
  if ledgerId = CONFIG_LEDGER_ID then (none, [])
  else (superResult, [NodeAction.superPostRecvTxnFromCatchup ledgerId txn])

/-- `Node.processRequest`: queries go to the query path; otherwise a forced
POOL_UPGRADE or POOL_CONFIG request is first validated and applied by the
config request handler, and then the request goes to the base class when the
pool is writable or the type is POOL_UPGRADE or POOL_CONFIG, else
InvalidClientRequest is raised.  The result is the trace of actions
performed, paired with the raised exception when there is one. -/
def processRequest (n : NodeState) (request : ClientRequest) (frm : String) :
    List NodeAction × Option InvalidClientRequestErr :=
  if n.isQuery request.txnType then
    ([NodeAction.processQuery request frm, NodeAction.incrementReadRequestCount], none)
  else
    let forcedActions :=
      if (request.txnType = POOL_UPGRADE ∨ request.txnType = POOL_CONFIG) ∧
          request.forced = true then
        [NodeAction.configValidate request, NodeAction.configApplyForced request]
      else []
    if n.poolCfg.writable = true ∨ request.txnType = POOL_UPGRADE ∨
        request.txnType = POOL_CONFIG then
      (forcedActions ++ [NodeAction.superProcessRequest request frm], none)
    else
      (forcedActions,
       some { identifier := request.identifier, reqId := request.reqId,
              reason := readonlyReason })

/-- `Node.onBatchCreated`: config ledger batches go to the config request
handler, every other ledger id is delegated unchanged to the base class. -/
def onBatchCreated (ledgerId : Nat) (stateRoot : String) : List NodeAction :=
  if ledgerId = CONFIG_LEDGER_ID then [NodeAction.configOnBatchCreated stateRoot]
  else [NodeAction.superOnBatchCreated ledgerId stateRoot]

/-- `Node.onBatchRejected`: config ledger batches go to the config request
handler, every other ledger id is delegated unchanged to the base class. -/
def onBatchRejected (ledgerId : Nat) : List NodeAction :=
  if ledgerId = CONFIG_LEDGER_ID then [NodeAction.configOnBatchRejected]
  else [NodeAction.superOnBatchRejected ledgerId]

/-! ### Attribute rehydration (`Node.update_txn_with_extra_data`) -/

/-- A ledger transaction as a dict, restricted to the keys
`update_txn_with_extra_data` reads: its TXN_TYPE, the RAW and ENC entries
(`none` = key absent, `some none` = key present with value None,
`some (some v)` = key present with value v) and an opaque remainder. -/
structure LedgerTxn where
  txnType : String
  raw : Option (Option String)
  enc : Option (Option String)
  rest : String
deriving DecidableEq

/-- The value of a dict entry when the key is present and not None, mirroring
the Python test `KEY in txn and txn[KEY] is not None`. -/
def dictVal : Option (Option String) → Option String
  | some (some v) => some v
  | _ => none

/-- Modelled from the spec: the secondary attribute store interface
(`indy_node.persistence.attribute_store`, not under src/) maps hash to
value; a rehydration miss (hash absent from the store) must surface as a
distinguishable error to the caller, never a substituted default value. -/
def attributeStoreGet (store : String → Option String) (h : String) :
    Except String String :=
  match store h with
  | some v => Except.ok v
  | none => Except.error ("attribute store miss: " ++ h)

/-- `Node.update_txn_with_extra_data`: for an ATTRIB transaction, choose RAW
when present and not None, else ENC when present and not None; when such a
key exists, replace its on-ledger hash by the value fetched from the
attribute store, propagating a store miss as an error; every other
transaction is returned unchanged. -/
def update_txn_with_extra_data (store : String → Option String)
    (txn : LedgerTxn) : Except String LedgerTxn :=
  if txn.txnType = ATTRIB then
    match dictVal txn.raw with
    | some h =>
      match attributeStoreGet store h with
      | Except.ok v => Except.ok { txn with raw := some (some v) }
      | Except.error e => Except.error e
    | none =>
      match dictVal txn.enc with
      | some h =>
        match attributeStoreGet store h with
        | Except.ok v => Except.ok { txn with enc := some (some v) }
        | Except.error e => Except.error e
      | none => Except.ok txn
  else Except.ok txn

/-! ### Helper predicates and sample inputs -/

/-- Recognizer for send actions in a trace. -/
def NodeAction.isSend : NodeAction → Bool
  | NodeAction.send _ => true
  | _ => false

/-- A sample upgrader view with a pending un-notified successful upgrade. -/
def sampleUpgrader : UpgraderView :=
  { shouldNotifyAboutUpgradeResult := true
    lastUpgradeEventVersion := "1.2.0"
    didLastExecutedUpgradeSucceeded := true
    scheduledUpgradeVersion := "1.3.0" }

/-- A sample node state on a read-only pool. -/
def sampleNode : NodeState :=
  { upgrader := sampleUpgrader
    poolCfg := { writable := false }
    nodestackName := "Alpha"
    walletIdentifier := "AlphaDID"
    walletReqId := 7
    signMsg := fun d => "sig:" ++ d.action ++ ":" ++ d.version
    signReqSig := fun _ _ => "reqsig"
    isQuery := fun t => t == "104"
    nodeAuthOk := fun _ i _ => i == "NodeB"
    isProcessingReq := fun _ _ => false }

/-- The sample node with a writable pool. -/
def sampleNodeWritable : NodeState :=
  { sampleNode with poolCfg := { writable := true } }

/-- The sample node whose upgrader asks for no notification. -/
def sampleNodeNoNotify : NodeState :=
  { sampleNode with
    upgrader := { sampleUpgrader with shouldNotifyAboutUpgradeResult := false } }

/-- A sample ordinary domain write request (a SCHEMA transaction). -/
def sampleWriteReq : ClientRequest :=
  { identifier := "cli1", reqId := 5, txnType := "101", forced := false }

/-- A sample forced POOL_CONFIG request. -/
def forcedCfgReq : ClientRequest :=
  { identifier := "cli2", reqId := 6, txnType := POOL_CONFIG, forced := true }

/-- A sample non-forced POOL_CONFIG request. -/
def plainCfgReq : ClientRequest :=
  { identifier := "cli3", reqId := 8, txnType := POOL_CONFIG, forced := false }

/-- A sample NODE_UPGRADE peer request. -/
def sampleNodeReq : NodeRequest :=
  { identifier := "NodeB", reqId := 9, txnType := NODE_UPGRADE
    data := { action := COMPLETE, version := "1.2.0" }, sig := "s" }

/-- A sample NODE_UPGRADE peer request from an unknown peer. -/
def badNodeReq : NodeRequest :=
  { identifier := "NodeX", reqId := 10, txnType := NODE_UPGRADE
    data := { action := FAIL, version := "1.2.0" }, sig := "s2" }

/-- A sample attribute store holding one hash. -/
def sampleStore : String → Option String :=
  fun h => if h = "h1" then some "v1" else none

/-- An ATTRIB transaction carrying only an ENC hash. -/
def encOnlyTxn : LedgerTxn :=
  { txnType := ATTRIB, raw := none, enc := some (some "h1"), rest := "payload" }

/-- An ATTRIB transaction carrying a RAW hash. -/
def rawTxn : LedgerTxn :=
  { txnType := ATTRIB, raw := some (some "h1"), enc := none, rest := "payload" }

/-! ### Claims -/

/-- C1: when the upgrader does not ask to notify about an upgrade result,
`acknowledge_upgrade` sends nothing and performs no upgrader state change
(its trace is empty); otherwise it performs exactly one send, of a
NODE_UPGRADE request whose DATA action is COMPLETE when the last executed
upgrade succeeded and FAIL otherwise and whose DATA version is the
upgrader's last upgrade event version, and the upgrader is told it has been
notified only after the send, never before (the trace is exactly
record-processing, then send, then notify). -/
theorem acknowledge_upgrade_spec (n : NodeState) :
    (n.upgrader.shouldNotifyAboutUpgradeResult = false →
      acknowledge_upgrade n = []) ∧
    (n.upgrader.shouldNotifyAboutUpgradeResult = true →
      ∃ req : BuiltRequest,
        acknowledge_upgrade n =
          [NodeAction.startedProcessingReq req.identifier req.reqId
            n.nodestackName,
           NodeAction.send req,
           NodeAction.upgraderNotifiedAboutUpgradeResult] ∧
        req.operation.txnType = NODE_UPGRADE ∧
        req.operation.data.action =
          (if n.upgrader.didLastExecutedUpgradeSucceeded then COMPLETE
           else FAIL) ∧
        req.operation.data.version = n.upgrader.lastUpgradeEventVersion ∧
        ((acknowledge_upgrade n).filter NodeAction.isSend).length = 1) := by
  constructor
  · intro h
    simp [acknowledge_upgrade, h]
  · intro h
    refine ⟨n.signRequest
        { txnType := NODE_UPGRADE
          data :=
            { action :=
                if n.upgrader.didLastExecutedUpgradeSucceeded then COMPLETE
                else FAIL
              version := n.upgrader.lastUpgradeEventVersion }
          sig := n.signMsg
            { action :=
                if n.upgrader.didLastExecutedUpgradeSucceeded then COMPLETE
                else FAIL
              version := n.upgrader.lastUpgradeEventVersion } } none,
      ?_, rfl, rfl, rfl, ?_⟩
    · simp [acknowledge_upgrade, h, NodeState.signRequest]
    · simp [acknowledge_upgrade, h, NodeState.signRequest, NodeAction.isSend]

/-- C1 witness: at the sample node states the two branches of
`acknowledge_upgrade_spec` evaluate as stated. -/
theorem acknowledge_upgrade_spec_witness :
    acknowledge_upgrade sampleNodeNoNotify = [] ∧
    (∃ req : BuiltRequest,
      acknowledge_upgrade sampleNode =
        [NodeAction.startedProcessingReq req.identifier req.reqId
          sampleNode.nodestackName,
         NodeAction.send req,
         NodeAction.upgraderNotifiedAboutUpgradeResult] ∧
      req.operation.txnType = NODE_UPGRADE ∧
      req.operation.data.action =
        (if sampleNode.upgrader.didLastExecutedUpgradeSucceeded then COMPLETE
         else FAIL) ∧
      req.operation.data.version =
        sampleNode.upgrader.lastUpgradeEventVersion ∧
      ((acknowledge_upgrade sampleNode).filter NodeAction.isSend).length = 1) :=
  ⟨(acknowledge_upgrade_spec sampleNodeNoNotify).1 rfl,
   (acknowledge_upgrade_spec sampleNode).2 rfl⟩

/-- C4: the catch-up sequencer chains ledgers in order: the hook after the
pool ledger is caught up starts the config ledger sync and then replays
stashed config ledger statuses; the hook after the config ledger is caught
up first recomputes PoolConfig, then the upgrade schedule, then starts the
domain ledger sync, then runs `acknowledge_upgrade`; domain sync is never
started by the pool hook and config sync is never started by the config
hook. -/
theorem catchup_sequencing_spec :
    catchup_next_ledger_after_pool =
      [NodeAction.syncLedger CONFIG_LEDGER_ID,
       NodeAction.processStashedLedgerStatuses CONFIG_LEDGER_ID] ∧
    (∀ n : NodeState,
      postConfigLedgerCaughtUp n =
        [NodeAction.poolCfgProcessLedger,
         NodeAction.upgraderProcessLedger,
         NodeAction.startDomainLedgerSync] ++ acknowledge_upgrade n) ∧
    NodeAction.startDomainLedgerSync ∉ catchup_next_ledger_after_pool ∧
    (∀ n : NodeState,
      NodeAction.syncLedger CONFIG_LEDGER_ID ∉ postConfigLedgerCaughtUp n) := by
  refine ⟨rfl, fun n => rfl, by decide, fun n => ?_⟩
  cases h : n.upgrader.shouldNotifyAboutUpgradeResult <;>
    simp [postConfigLedgerCaughtUp, acknowledge_upgrade, h,
      NodeState.signRequest]

/-- C4 witness: the config-caught-up hook evaluated at the sample node. -/
theorem catchup_sequencing_spec_witness :
    postConfigLedgerCaughtUp sampleNode =
      [NodeAction.poolCfgProcessLedger,
       NodeAction.upgraderProcessLedger,
       NodeAction.startDomainLedgerSync] ++ acknowledge_upgrade sampleNode ∧
    NodeAction.syncLedger CONFIG_LEDGER_ID ∉ postConfigLedgerCaughtUp sampleNode :=
  ⟨catchup_sequencing_spec.2.1 sampleNode,
   catchup_sequencing_spec.2.2.2 sampleNode⟩

/-- C6: both upgrade lifecycle control messages, the IN_PROGRESS message
built by `notify_upgrade_start` and the COMPLETE/FAIL message built by
`acknowledge_upgrade`, are NODE_UPGRADE operations whose DATA contains
exactly the action and the version, carry a signature computed with the
node's own wallet key over the DATA body, and are built with
protocolVersion None. -/
theorem upgrade_messages_spec (n : NodeState) :
    (∃ req : BuiltRequest,
      notify_upgrade_start n =
        [NodeAction.startedProcessingReq req.identifier req.reqId
          n.nodestackName,
         NodeAction.send req] ∧
      req.operation.txnType = NODE_UPGRADE ∧
      req.operation.data =
        { action := IN_PROGRESS
          version := n.upgrader.scheduledUpgradeVersion } ∧
      req.operation.sig = n.signMsg req.operation.data ∧
      req.protocolVersion = none) ∧
    (n.upgrader.shouldNotifyAboutUpgradeResult = true →
      ∃ req : BuiltRequest,
        NodeAction.send req ∈ acknowledge_upgrade n ∧
        req.operation.txnType = NODE_UPGRADE ∧
        req.operation.data =
          { action :=
              if n.upgrader.didLastExecutedUpgradeSucceeded then COMPLETE
              else FAIL
            version := n.upgrader.lastUpgradeEventVersion } ∧
        req.operation.sig = n.signMsg req.operation.data ∧
        req.protocolVersion = none) := by
  constructor
  · exact ⟨n.signRequest
      { txnType := NODE_UPGRADE
        data := { action := IN_PROGRESS
                  version := n.upgrader.scheduledUpgradeVersion }
        sig := n.signMsg
          { action := IN_PROGRESS
            version := n.upgrader.scheduledUpgradeVersion } } none,
      rfl, rfl, rfl, rfl, rfl⟩
  · intro h
    refine ⟨n.signRequest
        { txnType := NODE_UPGRADE
          data :=
            { action :=
                if n.upgrader.didLastExecutedUpgradeSucceeded then COMPLETE
                else FAIL
              version := n.upgrader.lastUpgradeEventVersion }
          sig := n.signMsg
            { action :=
                if n.upgrader.didLastExecutedUpgradeSucceeded then COMPLETE
                else FAIL
              version := n.upgrader.lastUpgradeEventVersion } } none,
      ?_, rfl, rfl, rfl, rfl⟩
    simp [acknowledge_upgrade, h, NodeState.signRequest]

/-- C6 witness: the existence parts of `upgrade_messages_spec` at the
sample node. -/
theorem upgrade_messages_spec_witness :
    (∃ req : BuiltRequest,
      notify_upgrade_start sampleNode =
        [NodeAction.startedProcessingReq req.identifier req.reqId
          sampleNode.nodestackName,
         NodeAction.send req] ∧
      req.operation.txnType = NODE_UPGRADE ∧
      req.operation.data =
        { action := IN_PROGRESS
          version := sampleNode.upgrader.scheduledUpgradeVersion } ∧
      req.operation.sig = sampleNode.signMsg req.operation.data ∧
      req.protocolVersion = none) ∧
    (∃ req : BuiltRequest,
      NodeAction.send req ∈ acknowledge_upgrade sampleNode ∧
      req.operation.txnType = NODE_UPGRADE ∧
      req.operation.data =
        { action :=
            if sampleNode.upgrader.didLastExecutedUpgradeSucceeded then COMPLETE
            else FAIL
          version := sampleNode.upgrader.lastUpgradeEventVersion } ∧
      req.operation.sig = sampleNode.signMsg req.operation.data ∧
      req.protocolVersion = none) :=
  ⟨(upgrade_messages_spec sampleNode).1,
   (upgrade_messages_spec sampleNode).2 rfl⟩

/-- C2: the write-mode gate of `processRequest`: a query request is handled
on the query path and never gated; a non-query request on a non-writable
pool whose type is neither POOL_UPGRADE nor POOL_CONFIG raises
InvalidClientRequest with the requester's identifier, request id and the
retry-advisory readonly reason, and is not forwarded to the normal
processing path; a non-query request on a writable pool, or of one of the
two governance types, is forwarded to the normal processing path and raises
nothing. -/
theorem processRequest_gate_spec (n : NodeState) (request : ClientRequest)
    (frm : String) :
    (n.isQuery request.txnType = true →
      processRequest n request frm =
        ([NodeAction.processQuery request frm,
          NodeAction.incrementReadRequestCount], none)) ∧
    (n.isQuery request.txnType = false →
      n.poolCfg.writable = false →
      request.txnType ≠ POOL_UPGRADE →
      request.txnType ≠ POOL_CONFIG →
      (processRequest n request frm).2 =
        some { identifier := request.identifier, reqId := request.reqId,
               reason := readonlyReason } ∧
      NodeAction.superProcessRequest request frm ∉
        (processRequest n request frm).1) ∧
    (n.isQuery request.txnType = false →
      (n.poolCfg.writable = true ∨ request.txnType = POOL_UPGRADE ∨
        request.txnType = POOL_CONFIG) →
      NodeAction.superProcessRequest request frm ∈
        (processRequest n request frm).1 ∧
      (processRequest n request frm).2 = none) := by
  refine ⟨fun h => by simp [processRequest, h],
    fun h hw h1 h2 => by simp [processRequest, h, hw, h1, h2],
    fun h hcase => ?_⟩
  have hres : processRequest n request frm =
      ((if (request.txnType = POOL_UPGRADE ∨ request.txnType = POOL_CONFIG) ∧
          request.forced = true then
        [NodeAction.configValidate request, NodeAction.configApplyForced request]
      else []) ++ [NodeAction.superProcessRequest request frm], none) := by
    simp only [processRequest, h, Bool.false_eq_true, if_false]
    rw [if_pos hcase]
  rw [hres]
  constructor
  · simp
  · rfl

/-- C2 witness: on the read-only sample node an ordinary domain write is
rejected with the readonly reason and not forwarded, while a POOL_CONFIG
request and any request on the writable sample node are forwarded. -/
theorem processRequest_gate_spec_witness :
    ((processRequest sampleNode sampleWriteReq "c").2 =
      some { identifier := sampleWriteReq.identifier,
             reqId := sampleWriteReq.reqId, reason := readonlyReason } ∧
     NodeAction.superProcessRequest sampleWriteReq "c" ∉
       (processRequest sampleNode sampleWriteReq "c").1) ∧
    (NodeAction.superProcessRequest plainCfgReq "c" ∈
       (processRequest sampleNode plainCfgReq "c").1 ∧
     (processRequest sampleNode plainCfgReq "c").2 = none) ∧
    (NodeAction.superProcessRequest sampleWriteReq "c" ∈
       (processRequest sampleNodeWritable sampleWriteReq "c").1 ∧
     (processRequest sampleNodeWritable sampleWriteReq "c").2 = none) :=
  ⟨(processRequest_gate_spec sampleNode sampleWriteReq "c").2.1 rfl rfl
      (by decide) (by decide),
   (processRequest_gate_spec sampleNode plainCfgReq "c").2.2 rfl
      (Or.inr (Or.inr rfl)),
   (processRequest_gate_spec sampleNodeWritable sampleWriteReq "c").2.2 rfl
      (Or.inl rfl)⟩

/-- C3: a non-query forced POOL_UPGRADE or POOL_CONFIG request is first
validated by the config request handler and then immediately applied via
applyForced, as the first two actions of the trace, before anything reaches
the consensus-ordered path, whatever the writable flag says. -/
theorem processRequest_forced_spec (n : NodeState) (request : ClientRequest)
    (frm : String)
    (hq : n.isQuery request.txnType = false)
    (ht : request.txnType = POOL_UPGRADE ∨ request.txnType = POOL_CONFIG)
    (hf : request.forced = true) :
    ∃ rest : List NodeAction,
      (processRequest n request frm).1 =
        NodeAction.configValidate request ::
          NodeAction.configApplyForced request :: rest := by
  rcases ht with ht | ht <;> (rw [ht] at hq) <;>
    exact ⟨[NodeAction.superProcessRequest request frm],
      by simp [processRequest, hq, ht, hf]⟩

/-- C3 witness: the forced POOL_CONFIG request is validated and
force-applied first, both on the read-only and on the writable sample
node. -/
theorem processRequest_forced_spec_witness :
    (∃ rest : List NodeAction,
      (processRequest sampleNode forcedCfgReq "c").1 =
        NodeAction.configValidate forcedCfgReq ::
          NodeAction.configApplyForced forcedCfgReq :: rest) ∧
    (∃ rest : List NodeAction,
      (processRequest sampleNodeWritable forcedCfgReq "c").1 =
        NodeAction.configValidate forcedCfgReq ::
          NodeAction.configApplyForced forcedCfgReq :: rest) :=
  ⟨processRequest_forced_spec sampleNode forcedCfgReq "c" rfl
      (Or.inr rfl) rfl,
   processRequest_forced_spec sampleNodeWritable forcedCfgReq "c" rfl
      (Or.inr rfl) rfl⟩

/-- C9: a non-query forced POOL_UPGRADE or POOL_CONFIG request takes both
paths: after forced validation and application it is still forwarded to the
normal consensus-ordered processing path, with no exception, whatever the
writable flag says. -/
theorem processRequest_forced_both_paths_spec (n : NodeState)
    (request : ClientRequest) (frm : String)
    (hq : n.isQuery request.txnType = false)
    (ht : request.txnType = POOL_UPGRADE ∨ request.txnType = POOL_CONFIG)
    (hf : request.forced = true) :
    (processRequest n request frm).1 =
      [NodeAction.configValidate request,
       NodeAction.configApplyForced request,
       NodeAction.superProcessRequest request frm] ∧
    (processRequest n request frm).2 = none := by
  rcases ht with ht | ht <;> (rw [ht] at hq) <;>
    simp [processRequest, hq, ht, hf]

/-- C9 witness: on the read-only sample node the forced POOL_CONFIG request
is force-applied and still forwarded to the normal path. -/
theorem processRequest_forced_both_paths_spec_witness :
    (processRequest sampleNode forcedCfgReq "c").1 =
      [NodeAction.configValidate forcedCfgReq,
       NodeAction.configApplyForced forcedCfgReq,
       NodeAction.superProcessRequest forcedCfgReq "c"] ∧
    (processRequest sampleNode forcedCfgReq "c").2 = none :=
  processRequest_forced_both_paths_spec sampleNode forcedCfgReq "c" rfl
    (Or.inr rfl) rfl

/-- C5: a NODE_UPGRADE node request is authenticated against the node
authenticator over the operation's DATA and SIG (and authNr selects the
node authenticator for that type); on authentication failure the message is
logged as a warning and dropped, with nothing recorded, nothing propagated
and no reply sent; on success the request is recorded as being processed
when it is not already, and propagated. -/
theorem processNodeRequest_spec (n : NodeState) (request : NodeRequest)
    (frm : String) (ht : request.txnType = NODE_UPGRADE) :
    authNr (some request.txnType) = Authenticator.nodeAuthNr ∧
    (n.nodeAuthOk request.data request.identifier request.sig = false →
      processNodeRequest n request frm =
        [NodeAction.nodeAuthenticate request.data request.identifier
          request.sig,
         NodeAction.logWarning request.identifier request.reqId]) ∧
    (n.nodeAuthOk request.data request.identifier request.sig = true →
      processNodeRequest n request frm =
        NodeAction.nodeAuthenticate request.data request.identifier
          request.sig ::
        ((if n.isProcessingReq request.identifier request.reqId then []
          else [NodeAction.startedProcessingReq request.identifier
                  request.reqId frm]) ++
         [NodeAction.recordAndPropagate request.identifier request.reqId
           frm])) := by
  refine ⟨by simp [authNr, ht], fun ha => by simp [processNodeRequest, ht, ha],
    fun ha => ?_⟩
  cases hp : n.isProcessingReq request.identifier request.reqId <;>
    simp [processNodeRequest, ht, ha, hp]

/-- C5 witness: at the sample node the authenticator choice, the drop of a
request from an unknown peer, and the record-and-propagate of an
authenticated request all evaluate as stated. -/
theorem processNodeRequest_spec_witness :
    authNr (some sampleNodeReq.txnType) = Authenticator.nodeAuthNr ∧
    processNodeRequest sampleNode badNodeReq "NodeX" =
      [NodeAction.nodeAuthenticate badNodeReq.data badNodeReq.identifier
        badNodeReq.sig,
       NodeAction.logWarning badNodeReq.identifier badNodeReq.reqId] ∧
    processNodeRequest sampleNode sampleNodeReq "NodeB" =
      NodeAction.nodeAuthenticate sampleNodeReq.data sampleNodeReq.identifier
        sampleNodeReq.sig ::
      ((if sampleNode.isProcessingReq sampleNodeReq.identifier
            sampleNodeReq.reqId then []
        else [NodeAction.startedProcessingReq sampleNodeReq.identifier
                sampleNodeReq.reqId "NodeB"]) ++
       [NodeAction.recordAndPropagate sampleNodeReq.identifier
         sampleNodeReq.reqId "NodeB"]) :=
  ⟨(processNodeRequest_spec sampleNode sampleNodeReq "NodeB" rfl).1,
   (processNodeRequest_spec sampleNode badNodeReq "NodeX" rfl).2.1 rfl,
   (processNodeRequest_spec sampleNode sampleNodeReq "NodeB" rfl).2.2 rfl⟩

/-- C8: batch dispatch is pure routing on the ledger id: for the config
ledger exactly the config request handler's method is invoked and nothing
else, and for every other ledger id the call is delegated unchanged to the
base dispatcher, without touching the config request handler. -/
theorem batch_dispatch_spec (ledgerId : Nat) (stateRoot : String) :
    (ledgerId = CONFIG_LEDGER_ID →
      onBatchCreated ledgerId stateRoot =
        [NodeAction.configOnBatchCreated stateRoot] ∧
      onBatchRejected ledgerId = [NodeAction.configOnBatchRejected]) ∧
    (ledgerId ≠ CONFIG_LEDGER_ID →
      onBatchCreated ledgerId stateRoot =
        [NodeAction.superOnBatchCreated ledgerId stateRoot] ∧
      onBatchRejected ledgerId =
        [NodeAction.superOnBatchRejected ledgerId]) := by
  refine ⟨fun h => ?_, fun h => ?_⟩ <;>
    simp [onBatchCreated, onBatchRejected, h]

/-- C8 witness: dispatch evaluated at the config ledger id and at the
domain ledger id. -/
theorem batch_dispatch_spec_witness :
    (onBatchCreated CONFIG_LEDGER_ID "root" =
      [NodeAction.configOnBatchCreated "root"] ∧
     onBatchRejected CONFIG_LEDGER_ID = [NodeAction.configOnBatchRejected]) ∧
    (onBatchCreated DOMAIN_LEDGER_ID "root" =
      [NodeAction.superOnBatchCreated DOMAIN_LEDGER_ID "root"] ∧
     onBatchRejected DOMAIN_LEDGER_ID =
      [NodeAction.superOnBatchRejected DOMAIN_LEDGER_ID]) :=
  ⟨(batch_dispatch_spec CONFIG_LEDGER_ID "root").1 rfl,
   (batch_dispatch_spec DOMAIN_LEDGER_ID "root").2 (by decide)⟩

/-- C10: a transaction received from catch-up for the config ledger yields
None and no call into any state projection (empty trace); every other
ledger id is delegated to the base behavior, whose result is returned
unchanged. -/
theorem postRecvTxnFromCatchup_spec (superResult : Option String)
    (ledgerId : Nat) (txn : String) :
    (ledgerId = CONFIG_LEDGER_ID →
      postRecvTxnFromCatchup superResult ledgerId txn = (none, [])) ∧
    (ledgerId ≠ CONFIG_LEDGER_ID →
      postRecvTxnFromCatchup superResult ledgerId txn =
        (superResult,
         [NodeAction.superPostRecvTxnFromCatchup ledgerId txn])) := by
  refine ⟨fun h => ?_, fun h => ?_⟩ <;> simp [postRecvTxnFromCatchup, h]

/-- C10 witness: catch-up receipt evaluated at the config ledger id and at
the domain ledger id. -/
theorem postRecvTxnFromCatchup_spec_witness :
    postRecvTxnFromCatchup (some "applied") CONFIG_LEDGER_ID "txn1" =
      (none, []) ∧
    postRecvTxnFromCatchup (some "applied") DOMAIN_LEDGER_ID "txn1" =
      (some "applied",
       [NodeAction.superPostRecvTxnFromCatchup DOMAIN_LEDGER_ID "txn1"]) :=
  ⟨(postRecvTxnFromCatchup_spec (some "applied") CONFIG_LEDGER_ID "txn1").1
      rfl,
   (postRecvTxnFromCatchup_spec (some "applied") DOMAIN_LEDGER_ID "txn1").2
      (by decide)⟩

/-- C7 counterexample: an ATTRIB transaction whose RAW key is absent but
whose ENC key holds a stored hash does not match the claim's shape (RAW
present and not None), yet it is not returned unchanged: its ENC hash is
replaced by the stored value. -/
theorem update_txn_enc_counterexample :
    encOnlyTxn.txnType = ATTRIB ∧
    dictVal encOnlyTxn.raw = none ∧
    update_txn_with_extra_data sampleStore encOnlyTxn =
      Except.ok { encOnlyTxn with enc := some (some "v1") } ∧
    ({ encOnlyTxn with enc := some (some "v1") } : LedgerTxn) ≠ encOnlyTxn :=
  ⟨rfl, rfl, rfl, by decide⟩

/-- C7 amended: for an ATTRIB transaction the rehydrated key is RAW when
present and not None, else ENC when present and not None; when such a key
exists its on-ledger hash is replaced by the value fetched from the
secondary attribute store, and a store miss surfaces as a distinguishable
error naming the hash, never a substituted default; every transaction with
neither key set, and every non-ATTRIB transaction, is returned unchanged. -/
theorem update_txn_with_extra_data_spec (store : String → Option String)
    (txn : LedgerTxn) :
    (txn.txnType ≠ ATTRIB →
      update_txn_with_extra_data store txn = Except.ok txn) ∧
    (txn.txnType = ATTRIB → dictVal txn.raw = none → dictVal txn.enc = none →
      update_txn_with_extra_data store txn = Except.ok txn) ∧
    (∀ h v, txn.txnType = ATTRIB → dictVal txn.raw = some h →
      store h = some v →
      update_txn_with_extra_data store txn =
        Except.ok { txn with raw := some (some v) }) ∧
    (∀ h, txn.txnType = ATTRIB → dictVal txn.raw = some h → store h = none →
      update_txn_with_extra_data store txn =
        Except.error ("attribute store miss: " ++ h)) ∧
    (∀ h v, txn.txnType = ATTRIB → dictVal txn.raw = none →
      dictVal txn.enc = some h → store h = some v →
      update_txn_with_extra_data store txn =
        Except.ok { txn with enc := some (some v) }) ∧
    (∀ h, txn.txnType = ATTRIB → dictVal txn.raw = none →
      dictVal txn.enc = some h → store h = none →
      update_txn_with_extra_data store txn =
        Except.error ("attribute store miss: " ++ h)) := by
  refine ⟨fun ht => by simp [update_txn_with_extra_data, ht],
    fun ht hr he => by simp [update_txn_with_extra_data, ht, hr, he],
    fun h v ht hr hs => by
      simp [update_txn_with_extra_data, ht, hr, attributeStoreGet, hs],
    fun h ht hr hs => by
      simp [update_txn_with_extra_data, ht, hr, attributeStoreGet, hs],
    fun h v ht hr he hs => by
      simp [update_txn_with_extra_data, ht, hr, he, attributeStoreGet, hs],
    fun h ht hr he hs => by
      simp [update_txn_with_extra_data, ht, hr, he, attributeStoreGet, hs]⟩

/-- C7 witness: rehydration of a RAW ATTRIB transaction whose hash is in
the sample store, and the distinguishable miss on a hash the store lacks. -/
theorem update_txn_with_extra_data_spec_witness :
    update_txn_with_extra_data sampleStore rawTxn =
      Except.ok { rawTxn with raw := some (some "v1") } ∧
    update_txn_with_extra_data (fun _ => none) rawTxn =
      Except.error ("attribute store miss: " ++ "h1") :=
  ⟨(update_txn_with_extra_data_spec sampleStore rawTxn).2.2.1 "h1" "v1"
      rfl rfl rfl,
   (update_txn_with_extra_data_spec (fun _ => none) rawTxn).2.2.2.1 "h1"
      rfl rfl rfl⟩
